import Mathlib

/-!
Verification of the embedding boundary of the wasmer engine:
the export value model and host-environment lifecycle bookkeeping
(src/lib/engine/src/export.rs) and the engine configuration factory
(src/lib/c-api/src/wasm_c_api/engine.rs), shallowly embedded in Lean.

Raw pointers (`*mut c_void`) are modelled as `Nat`, with `0` playing the
role of the null pointer.  Function pointers are modelled as opaque `Nat`
identifiers; an *invocation* of the embedder-supplied drop function is
recorded by appending its argument to an explicit invocation list, so
that "drop_fn is invoked exactly once on p" becomes a statement about
that list.  Compile-time cargo features are modelled, following the
design note of the spec, as a runtime capability record `Features`, so
the `cfg_if!` branching of the source becomes ordinary control flow.
-/

namespace Wasmer

/-- Opaque descriptor for `wasmer_vm::VMExportFunction` (an external
collaborator type of src/lib/engine/src/export.rs); modelled as an
opaque identifier. -/
structure VMExportFunction where
  id : Nat
deriving DecidableEq

/-- Opaque descriptor for `wasmer_vm::VMExportTable`. -/
structure VMExportTable where
  id : Nat
deriving DecidableEq

/-- Opaque descriptor for `wasmer_vm::VMExportMemory`. -/
structure VMExportMemory where
  id : Nat
deriving DecidableEq

/-- Opaque descriptor for `wasmer_vm::VMExportGlobal`. -/
structure VMExportGlobal where
  id : Nat
deriving DecidableEq

/-- `ExportFunctionMetadata` (export.rs lines 57-87): the master host
environment pointer together with the manual-dispatch function pointers.
`host_env = 0` models a null `*mut c_void`; the three function pointers
are opaque identifiers. -/
structure ExportFunctionMetadata where
  host_env : Nat
  import_init_function_ptr : Option Nat
  host_env_clone_fn : Nat
  host_env_drop_fn : Nat
deriving DecidableEq

/-- `ExportFunctionMetadata::new` (export.rs lines 103-115): plain
constructor, no validation of `host_env` (a null pointer is accepted). -/
def ExportFunctionMetadata.new (host_env : Nat) (import_init_function_ptr : Option Nat)
    (host_env_clone_fn : Nat) (host_env_drop_fn : Nat) : ExportFunctionMetadata :=
  ⟨host_env, import_init_function_ptr, host_env_clone_fn, host_env_drop_fn⟩

/-- `ExportFunction` (export.rs lines 135-143): the VM function
descriptor plus the optional shared (`Option<Arc<..>>`) metadata.  For
the value-level conversions the `Arc` indirection is immaterial, so the
metadata is carried by value; the sharing semantics of the `Arc` are
modelled separately by `ArcState`. -/
structure ExportFunction where
  vm_function : VMExportFunction
  metadata : Option ExportFunctionMetadata
deriving DecidableEq

/-- `ExportTable` (export.rs lines 152-156). -/
structure ExportTable where
  vm_table : VMExportTable
deriving DecidableEq

/-- `ExportMemory` (export.rs lines 165-169). -/
structure ExportMemory where
  vm_memory : VMExportMemory
deriving DecidableEq

/-- `ExportGlobal` (export.rs lines 178-182). -/
structure ExportGlobal where
  vm_global : VMExportGlobal
deriving DecidableEq

/-- `Export` (export.rs lines 9-22): the closed union of the four kinds
of export values. -/
inductive Export where
  | Function (f : ExportFunction)
  | Table (t : ExportTable)
  | Memory (m : ExportMemory)
  | Global (g : ExportGlobal)
deriving DecidableEq

/-- `VMExport` (external collaborator, mirrored here with the same four
kinds carrying the low-level descriptors). -/
inductive VMExport where
  | Function (f : VMExportFunction)
  | Table (t : VMExportTable)
  | Memory (m : VMExportMemory)
  | Global (g : VMExportGlobal)
deriving DecidableEq

/-- `impl From<Export> for VMExport` (export.rs lines 24-33): the
Function arm discards the metadata field
(`ExportFunction { vm_function, .. }`) and keeps the descriptor; the
other three arms map their descriptor across unchanged. -/
def to_internal : Export → VMExport
  | .Function f => .Function f.vm_function
  | .Memory m => .Memory m.vm_memory
  | .Table t => .Table t.vm_table
  | .Global g => .Global g.vm_global

/-- `impl From<VMExport> for Export` (export.rs lines 35-47): the
Function arm rebuilds an `ExportFunction` with `metadata: None`; the
other three arms map their descriptor across unchanged. -/
def from_internal : VMExport → Export
  | .Function vm_function => .Function ⟨vm_function, none⟩
  | .Memory vm_memory => .Memory ⟨vm_memory⟩
  | .Table vm_table => .Table ⟨vm_table⟩
  | .Global vm_global => .Global ⟨vm_global⟩

/-- `impl Drop for ExportFunctionMetadata` (export.rs lines 120-131):
when the metadata is destroyed, IF `host_env` is not null the
drop function is invoked on it; a null `host_env` is skipped by the
explicit `is_null` check.  `calls` is the running list of arguments
passed to `host_env_drop_fn`; an invocation appends its argument. -/
def metadataDrop (m : ExportFunctionMetadata) (calls : List Nat) : List Nat :=
  if m.host_env ≠ 0 then calls ++ [m.host_env] else calls

/-- Observable state of one `Arc<ExportFunctionMetadata>` allocation:
`strong` is the strong reference count (one per `Export::Function`
handle currently sharing the metadata), `cloneCalls` counts invocations
of `host_env_clone_fn`, and `dropped` lists the arguments passed to
`host_env_drop_fn` so far, in order. -/
structure ArcState where
  strong : Nat
  cloneCalls : Nat
  dropped : List Nat
deriving DecidableEq

/-- An event on the shared metadata handle: cloning an
`Export::Function` (which `#[derive(Clone)]`s the `Option<Arc<..>>`
field, export.rs line 135) or dropping one. -/
inductive HandleEvent where
  | cloneHandle
  | dropHandle
deriving DecidableEq

/-- One event on the shared handle, following the semantics of
`std::sync::Arc` (an external collaborator): cloning increments the
strong count and touches nothing else — in particular it does not
invoke `host_env_clone_fn` — and dropping decrements it, running
`Drop for ExportFunctionMetadata` (`metadataDrop`) exactly when the
last strong reference goes away. -/
def stepHandle (m : ExportFunctionMetadata) (s : ArcState) : HandleEvent → ArcState
  | .cloneHandle => ⟨s.strong + 1, s.cloneCalls, s.dropped⟩
  | .dropHandle =>
      if s.strong = 1 then ⟨0, s.cloneCalls, metadataDrop m s.dropped⟩
      else ⟨s.strong - 1, s.cloneCalls, s.dropped⟩

/-- Run a list of handle events from a starting state. -/
def runHandle (m : ExportFunctionMetadata) (s : ArcState) : List HandleEvent → ArcState
  | [] => s
  | e :: es => runHandle m (stepHandle m s e) es

/-- `closesFrom k es` holds when, starting from `k` live handles
(`k` owners of the `Arc`), the event list `es` is a legal interleaving
of clones and drops of existing handles that ends with every handle
dropped.  Every event requires at least one live handle. -/
def closesFrom : Nat → List HandleEvent → Bool
  | k, [] => k == 0
  | k, .cloneHandle :: es => decide (0 < k) && closesFrom (k + 1) es
  | k, .dropHandle :: es => decide (0 < k) && closesFrom (k - 1) es

/-- The build's compiled-in capability set: one flag per cargo feature
consulted by src/lib/c-api/src/wasm_c_api/engine.rs.  Following the
spec's design note, the compile-time `cfg_if!` selection is modelled as
a runtime value fixed for the whole run. -/
structure Features where
  compiler : Bool
  cranelift : Bool
  llvm : Bool
  singlepass : Bool
  jit : Bool
  native : Bool
  objectFile : Bool
deriving DecidableEq

/-- `wasmer_compiler_t` (engine.rs lines 19-31). -/
inductive wasmer_compiler_t where
  | CRANELIFT
  | LLVM
  | SINGLEPASS
deriving DecidableEq

/-- `wasmer_engine_t` the enum (engine.rs lines 57-69). -/
inductive wasmer_engine_t where
  | JIT
  | NATIVE
  | OBJECT_FILE
deriving DecidableEq

/-- `wasm_config_t` (engine.rs lines 92-96).  In the source the
`compiler` field exists only under the `compiler` feature; it is carried
unconditionally here and simply ignored on the non-compiler build path
of `wasm_engine_new_with_config`, which never reads it. -/
structure wasm_config_t where
  engine : wasmer_engine_t
  compiler : wasmer_compiler_t
deriving DecidableEq

/-- `impl Default for wasmer_compiler_t` (engine.rs lines 34-48): first
compiled-in backend in the order cranelift, llvm, singlepass.  When no
backend is compiled in the source raises `compile_error!` (a build-time
failure); the fallback arm here is unreachable under the hypotheses of
every theorem that uses it. -/
def wasmer_compiler_default (feat : Features) : wasmer_compiler_t :=
  if feat.cranelift then .CRANELIFT
  else if feat.llvm then .LLVM
  else .SINGLEPASS

/-- `impl Default for wasmer_engine_t` (engine.rs lines 71-85): first
compiled-in engine in the order jit, native, object-file, with the same
`compile_error!` caveat as `wasmer_compiler_default`. -/
def wasmer_engine_default (feat : Features) : wasmer_engine_t :=
  if feat.jit then .JIT
  else if feat.native then .NATIVE
  else .OBJECT_FILE

/-- `wasm_config_new` (engine.rs lines 130-132): the default
configuration. -/
def wasm_config_new (feat : Features) : wasm_config_t :=
  ⟨wasmer_engine_default feat, wasmer_compiler_default feat⟩

/-- `wasm_config_set_compiler` (engine.rs lines 170-175): records the
compiler choice, nothing else. -/
def wasm_config_set_compiler (config : wasm_config_t)
    (compiler : wasmer_compiler_t) : wasm_config_t :=
  { config with compiler := compiler }

/-- `wasm_config_set_engine` (engine.rs lines 212-214): records the
engine choice, nothing else. -/
def wasm_config_set_engine (config : wasm_config_t)
    (engine : wasmer_engine_t) : wasm_config_t :=
  { config with engine := engine }

/-- The shape of the `Arc<dyn Engine>` stored in a `wasm_engine_t`
handle: which engine implementation was constructed, and — for the two
compiling constructors — which compiler configuration it was given. -/
inductive EngineImpl where
  | jitNew (compiler_config : wasmer_compiler_t)
  | jitHeadless
  | nativeNew (compiler_config : wasmer_compiler_t)
  | nativeHeadless
  | objectFileHeadless
deriving DecidableEq

/-- `wasm_engine_t` the handle struct (engine.rs lines 221-223). -/
structure wasm_engine_t where
  inner : EngineImpl
deriving DecidableEq

/-- The error message text used by every availability failure in
`wasm_engine_new_with_config`. -/
def missingFeatureMsg (name : String) : String :=
  "Wasmer has not been compiled with the `" ++ name ++ "` feature."

/-- `return_with_error` (engine.rs lines 372-381): records the message
into the process-wide last-error slot (`update_last_error`, which
overwrites the slot) and returns `None`.  The slot is threaded
explicitly: the pair is (returned handle, slot after the call). -/
def return_with_error (msg : String) (_slot : Option String) :
    Option wasm_engine_t × Option String :=
  (none, some msg)

/-- The compiler match of `wasm_engine_new_with_config`
(engine.rs lines 386-414): each arm yields the corresponding compiler
configuration when its feature is compiled in and otherwise
early-returns the error naming the missing feature. -/
def selectCompilerConfig (feat : Features) :
    wasmer_compiler_t → Except String wasmer_compiler_t
  | .CRANELIFT =>
      if feat.cranelift then .ok .CRANELIFT
      else .error (missingFeatureMsg "cranelift")
  | .LLVM =>
      if feat.llvm then .ok .LLVM
      else .error (missingFeatureMsg "llvm")
  | .SINGLEPASS =>
      if feat.singlepass then .ok .SINGLEPASS
      else .error (missingFeatureMsg "singlepass")

/-- The engine match of `wasm_engine_new_with_config` on the
compiler-enabled build path (engine.rs lines 416-446): JIT and NATIVE
consume the compiler configuration; OBJECT_FILE is always constructed
headless, ignoring it. -/
def selectEngineWithCompiler (feat : Features)
    (compiler_config : wasmer_compiler_t) :
    wasmer_engine_t → Except String EngineImpl
  | .JIT =>
      if feat.jit then .ok (.jitNew compiler_config)
      else .error (missingFeatureMsg "jit")
  | .NATIVE =>
      if feat.native then .ok (.nativeNew compiler_config)
      else .error (missingFeatureMsg "native")
  | .OBJECT_FILE =>
      if feat.objectFile then .ok .objectFileHeadless
      else .error (missingFeatureMsg "object-file")

/-- The engine match of `wasm_engine_new_with_config` on the
no-compiler build path (engine.rs lines 449-477): every engine is
constructed headless. -/
def selectEngineHeadless (feat : Features) :
    wasmer_engine_t → Except String EngineImpl
  | .JIT =>
      if feat.jit then .ok .jitHeadless
      else .error (missingFeatureMsg "jit")
  | .NATIVE =>
      if feat.native then .ok .nativeHeadless
      else .error (missingFeatureMsg "native")
  | .OBJECT_FILE =>
      if feat.objectFile then .ok .objectFileHeadless
      else .error (missingFeatureMsg "object-file")

/-- `wasm_engine_new_with_config` (engine.rs lines 368-481).  On the
compiler-enabled build path the compiler match runs first (its early
returns fire before the engine is ever examined), then the engine
match; on the no-compiler path only the engine match runs.  `slot` is
the process-wide last-error slot before the call; the returned pair is
(engine handle option, slot after the call). -/
def wasm_engine_new_with_config (feat : Features) (config : wasm_config_t)
    (slot : Option String) : Option wasm_engine_t × Option String :=
  if feat.compiler then
    match selectCompilerConfig feat config.compiler with
    | .error msg => return_with_error msg slot
    | .ok compiler_config =>
      match selectEngineWithCompiler feat compiler_config config.engine with
      | .error msg => return_with_error msg slot
      | .ok inner => (some ⟨inner⟩, slot)
  else
    match selectEngineHeadless feat config.engine with
    | .error msg => return_with_error msg slot
    | .ok inner => (some ⟨inner⟩, slot)

/-- Whether the selected compiler backend's feature is compiled in
(the condition tested by the corresponding `cfg_if!` arm of the
compiler match). -/
def compilerFeatureEnabled (feat : Features) : wasmer_compiler_t → Bool
  | .CRANELIFT => feat.cranelift
  | .LLVM => feat.llvm
  | .SINGLEPASS => feat.singlepass

/-- Whether the selected engine's feature is compiled in. -/
def engineFeatureEnabled (feat : Features) : wasmer_engine_t → Bool
  | .JIT => feat.jit
  | .NATIVE => feat.native
  | .OBJECT_FILE => feat.objectFile

/-- The feature name a compiler-availability failure message cites. -/
def compilerFeatureName : wasmer_compiler_t → String
  | .CRANELIFT => "cranelift"
  | .LLVM => "llvm"
  | .SINGLEPASS => "singlepass"

/-- The feature name an engine-availability failure message cites. -/
def engineFeatureName : wasmer_engine_t → String
  | .JIT => "jit"
  | .NATIVE => "native"
  | .OBJECT_FILE => "object-file"

/-- C5: `from_internal (to_internal e)` is the identity on Table, Memory
and Global exports, and on a Function export it reproduces the
`vm_function` descriptor but always yields `metadata = none`, even when
the original metadata was present. -/
theorem export_round_trip :
    (∀ t : ExportTable, from_internal (to_internal (.Table t)) = .Table t) ∧
    (∀ m : ExportMemory, from_internal (to_internal (.Memory m)) = .Memory m) ∧
    (∀ g : ExportGlobal, from_internal (to_internal (.Global g)) = .Global g) ∧
    (∀ f : ExportFunction,
      from_internal (to_internal (.Function f)) = .Function ⟨f.vm_function, none⟩) :=
  ⟨fun _ => rfl, fun _ => rfl, fun _ => rfl, fun _ => rfl⟩

/-- C7: `to_internal` is a total structural mapping — the Function arm
drops the metadata and keeps only the callable descriptor, the other
three arms are 1:1 — and every Function value produced by
`from_internal` carries an absent metadata field. -/
theorem to_internal_structural :
    (∀ f : ExportFunction, to_internal (.Function f) = .Function f.vm_function) ∧
    (∀ t : ExportTable, to_internal (.Table t) = .Table t.vm_table) ∧
    (∀ m : ExportMemory, to_internal (.Memory m) = .Memory m.vm_memory) ∧
    (∀ g : ExportGlobal, to_internal (.Global g) = .Global g.vm_global) ∧
    (∀ vf : VMExportFunction, from_internal (.Function vf) = .Function ⟨vf, none⟩) :=
  ⟨fun _ => rfl, fun _ => rfl, fun _ => rfl, fun _ => rfl, fun _ => rfl⟩

/-- C9: the internal-side round trip `to_internal (from_internal v)` is
the identity on every low-level export value, Function values included
(the absent metadata attached by `from_internal` is dropped again by
`to_internal`). -/
theorem to_internal_from_internal_id (v : VMExport) :
    to_internal (from_internal v) = v := by
  cases v <;> rfl

/-- Dropping `k` of `j + k` live handles never reaches the last strong
reference when `1 ≤ j`, so the metadata is not finalized and no drop
invocation is recorded. -/
theorem runHandle_remaining (m : ExportFunctionMetadata) (j c : Nat) (l : List Nat)
    (hj : 1 ≤ j) :
    ∀ k, runHandle m ⟨j + k, c, l⟩ (List.replicate k HandleEvent.dropHandle) = ⟨j, c, l⟩ := by
  intro k
  induction k with
  | zero => rfl
  | succ k ih =>
    have h1 : ¬ (j + (k + 1) = 1) := by omega
    have h2 : j + (k + 1) - 1 = j + k := by omega
    simp only [List.replicate_succ, runHandle, stepHandle, h1, if_false, h2]
    exact ih

/-- Dropping all `k` of `k` live handles (`1 ≤ k`) finalizes the
metadata at the last drop, running `metadataDrop` exactly once. -/
theorem runHandle_all (m : ExportFunctionMetadata) (c : Nat) (l : List Nat) :
    ∀ k, 1 ≤ k →
      runHandle m ⟨k, c, l⟩ (List.replicate k HandleEvent.dropHandle) =
        ⟨0, c, metadataDrop m l⟩ := by
  intro k
  induction k with
  | zero => intro h; omega
  | succ k ih =>
    intro _
    rcases Nat.eq_zero_or_pos k with hk | hk
    · subst hk; rfl
    · have h1 : ¬ (k + 1 = 1) := by omega
      simp only [List.replicate_succ, runHandle, stepHandle, h1, if_false,
        Nat.add_sub_cancel]
      exact ih hk

/-- Running a legal closing trace from `k ≥ 1` live handles finalizes
the metadata exactly once, at the very last event, and never invokes
the clone function. -/
theorem runHandle_closes (m : ExportFunctionMetadata) :
    ∀ (es : List HandleEvent) (k c : Nat) (l : List Nat), 1 ≤ k →
      closesFrom k es = true →
      runHandle m ⟨k, c, l⟩ es = ⟨0, c, metadataDrop m l⟩ := by
  intro es
  induction es with
  | nil =>
    intro k c l hk h
    simp only [closesFrom, beq_iff_eq] at h
    omega
  | cons e es ih =>
    intro k c l hk h
    cases e with
    | cloneHandle =>
      simp only [closesFrom, Bool.and_eq_true, decide_eq_true_eq] at h
      show runHandle m (stepHandle m ⟨k, c, l⟩ .cloneHandle) es = _
      simp only [stepHandle]
      exact ih (k + 1) c l (by omega) h.2
    | dropHandle =>
      simp only [closesFrom, Bool.and_eq_true, decide_eq_true_eq] at h
      show runHandle m (stepHandle m ⟨k, c, l⟩ .dropHandle) es = _
      rcases Nat.lt_or_ge k 2 with hk2 | hk2
      · have hk1 : k = 1 := by omega
        subst hk1
        have hes : es = [] := by
          cases es with
          | nil => rfl
          | cons e2 es2 =>
            exfalso
            cases e2 <;> simp [closesFrom] at h
        subst hes
        simp [stepHandle]
        rfl
      · have h1 : ¬ (k = 1) := by omega
        simp only [stepHandle, h1, if_false]
        exact ih (k - 1) c l (by omega) h.2

/-- C1 counterexample: a Host Environment Metadata whose master pointer
is null (`host_env = 0`), shared by N = 1 Export; dropping it records no
invocation of `host_env_drop_fn` at all — not the exactly-one invocation
the claim demands — because `Drop for ExportFunctionMetadata` explicitly
skips a null `host_env`. -/
theorem master_drop_once_null_counterexample :
    (runHandle ⟨0, none, 5, 6⟩ ⟨1, 0, []⟩ [HandleEvent.dropHandle]).dropped = [] ∧
    (runHandle ⟨0, none, 5, 6⟩ ⟨1, 0, []⟩ [HandleEvent.dropHandle]).dropped.length ≠ 1 := by
  constructor
  · rfl
  · decide

/-- C1 (amended to non-null master pointers): for metadata with a
non-null master pointer shared by `n ≥ 1` Exports, dropping all `n`
invokes `host_env_drop_fn` on the master pointer exactly once, and after
any `k < n` of the drops no invocation has happened yet; a null master
pointer is skipped and never passed to the drop function. -/
theorem master_drop_exactly_once (m : ExportFunctionMetadata) (n k : Nat)
    (hm : m.host_env ≠ 0) (hn : 1 ≤ n) (hk : k < n) :
    (runHandle m ⟨n, 0, []⟩ (List.replicate n HandleEvent.dropHandle)).dropped =
      [m.host_env] ∧
    (runHandle m ⟨n, 0, []⟩ (List.replicate k HandleEvent.dropHandle)).dropped = [] := by
  constructor
  · rw [runHandle_all m 0 [] n hn]
    simp [metadataDrop, hm]
  · have hnk : n = (n - k) + k := by omega
    rw [hnk, runHandle_remaining m (n - k) 0 [] (by omega) k]

/-- C1 witness: a metadata with master pointer 3 shared by two Exports;
after both drops the drop function has run once on 3, after the first
drop it has not run. -/
theorem master_drop_exactly_once_witness :
    (runHandle ⟨3, none, 5, 6⟩ ⟨2, 0, []⟩
      (List.replicate 2 HandleEvent.dropHandle)).dropped = [3] ∧
    (runHandle ⟨3, none, 5, 6⟩ ⟨2, 0, []⟩
      (List.replicate 1 HandleEvent.dropHandle)).dropped = [] :=
  master_drop_exactly_once ⟨3, none, 5, 6⟩ 2 1 (by decide) (by decide) (by decide)

/-- C6 counterexample: destroying a metadata registered with a null
master pointer does NOT invoke the drop function receiving null — the
`Drop` implementation contains an explicit `is_null` check and skips the
call, so the invocation list stays empty instead of receiving the null
pointer. -/
theorem null_passthrough_counterexample :
    metadataDrop ⟨0, none, 5, 6⟩ [] = [] ∧ metadataDrop ⟨0, none, 5, 6⟩ [] ≠ [0] := by
  constructor
  · rfl
  · decide

/-- C6 (amended): when a Host Environment Metadata with a null master
pointer is destroyed, `host_env_drop_fn` is not invoked at all — the
`Drop` implementation explicitly checks the pointer for null and skips
the call, rather than passing the null pointer through. -/
theorem null_master_drop_skipped (m : ExportFunctionMetadata) (calls : List Nat)
    (hm : m.host_env = 0) : metadataDrop m calls = calls := by
  simp [metadataDrop, hm]

/-- C6 witness: the null-master metadata leaves the invocation list
untouched on destruction. -/
theorem null_master_drop_skipped_witness :
    metadataDrop ⟨0, none, 5, 6⟩ [7] = [7] :=
  null_master_drop_skipped ⟨0, none, 5, 6⟩ [7] rfl

/-- C10: cloning an `Export::Function` only duplicates the shared
reference-counted handle — the step increments the strong count and
leaves the clone-invocation count and the drop-invocation list (and the
metadata itself, which all handles share) untouched — and over any legal
trace of clones and drops that releases every handle, the clone function
is never invoked by the cloning and the non-null master pointer is still
passed to the drop function exactly once in total. -/
theorem clone_shares_metadata (m : ExportFunctionMetadata) (s : ArcState)
    (es : List HandleEvent) (hm : m.host_env ≠ 0) (hes : closesFrom 1 es = true) :
    stepHandle m s .cloneHandle = ⟨s.strong + 1, s.cloneCalls, s.dropped⟩ ∧
    (runHandle m ⟨1, 0, []⟩ es).cloneCalls = 0 ∧
    (runHandle m ⟨1, 0, []⟩ es).dropped = [m.host_env] := by
  refine ⟨rfl, ?_, ?_⟩
  · rw [runHandle_closes m es 1 0 [] (by omega) hes]
  · rw [runHandle_closes m es 1 0 [] (by omega) hes]
    simp [metadataDrop, hm]

/-- C10 witness: one original handle, cloned twice and dropped three
times; the clone function never ran and the master pointer 3 was dropped
exactly once. -/
theorem clone_shares_metadata_witness :
    stepHandle ⟨3, none, 5, 6⟩ ⟨1, 0, []⟩ .cloneHandle = ⟨2, 0, []⟩ ∧
    (runHandle ⟨3, none, 5, 6⟩ ⟨1, 0, []⟩
      [HandleEvent.cloneHandle, HandleEvent.cloneHandle, HandleEvent.dropHandle,
        HandleEvent.dropHandle, HandleEvent.dropHandle]).cloneCalls = 0 ∧
    (runHandle ⟨3, none, 5, 6⟩ ⟨1, 0, []⟩
      [HandleEvent.cloneHandle, HandleEvent.cloneHandle, HandleEvent.dropHandle,
        HandleEvent.dropHandle, HandleEvent.dropHandle]).dropped = [3] :=
  clone_shares_metadata ⟨3, none, 5, 6⟩ ⟨1, 0, []⟩
    [HandleEvent.cloneHandle, HandleEvent.cloneHandle, HandleEvent.dropHandle,
      HandleEvent.dropHandle, HandleEvent.dropHandle] (by decide) (by decide)

/-- The compiler match succeeds, yielding the selected configuration,
exactly when the selected backend's feature is compiled in. -/
theorem selectCompilerConfig_ok (feat : Features) (c : wasmer_compiler_t)
    (h : compilerFeatureEnabled feat c = true) :
    selectCompilerConfig feat c = .ok c := by
  cases c <;> simp_all [selectCompilerConfig, compilerFeatureEnabled]

/-- The compiler match fails with the message naming the selected
backend's feature when that feature is not compiled in. -/
theorem selectCompilerConfig_err (feat : Features) (c : wasmer_compiler_t)
    (h : compilerFeatureEnabled feat c = false) :
    selectCompilerConfig feat c = .error (missingFeatureMsg (compilerFeatureName c)) := by
  cases c <;> simp_all [selectCompilerConfig, compilerFeatureEnabled, compilerFeatureName]

/-- The compiler-path engine match succeeds when the selected engine's
feature is compiled in. -/
theorem selectEngineWithCompiler_ok (feat : Features) (cc : wasmer_compiler_t)
    (e : wasmer_engine_t) (h : engineFeatureEnabled feat e = true) :
    ∃ i, selectEngineWithCompiler feat cc e = .ok i := by
  cases e <;> simp_all [selectEngineWithCompiler, engineFeatureEnabled]

/-- The compiler-path engine match fails with the message naming the
selected engine's feature when that feature is not compiled in. -/
theorem selectEngineWithCompiler_err (feat : Features) (cc : wasmer_compiler_t)
    (e : wasmer_engine_t) (h : engineFeatureEnabled feat e = false) :
    selectEngineWithCompiler feat cc e =
      .error (missingFeatureMsg (engineFeatureName e)) := by
  cases e <;> simp_all [selectEngineWithCompiler, engineFeatureEnabled, engineFeatureName]

/-- The headless engine match succeeds when the selected engine's
feature is compiled in. -/
theorem selectEngineHeadless_ok (feat : Features) (e : wasmer_engine_t)
    (h : engineFeatureEnabled feat e = true) :
    ∃ i, selectEngineHeadless feat e = .ok i := by
  cases e <;> simp_all [selectEngineHeadless, engineFeatureEnabled]

/-- The headless engine match fails with the message naming the
selected engine's feature when that feature is not compiled in. -/
theorem selectEngineHeadless_err (feat : Features) (e : wasmer_engine_t)
    (h : engineFeatureEnabled feat e = false) :
    selectEngineHeadless feat e = .error (missingFeatureMsg (engineFeatureName e)) := by
  cases e <;> simp_all [selectEngineHeadless, engineFeatureEnabled, engineFeatureName]

/-- The default compiler choice is itself compiled in as soon as any
compiler backend is. -/
theorem wasmer_compiler_default_enabled (feat : Features)
    (h : (feat.cranelift || feat.llvm || feat.singlepass) = true) :
    compilerFeatureEnabled feat (wasmer_compiler_default feat) = true := by
  unfold wasmer_compiler_default
  rcases hcr : feat.cranelift <;> rcases hll : feat.llvm <;>
    simp_all [compilerFeatureEnabled]

/-- C2: on a compiler-enabled build, `wasm_engine_new_with_config`
validates the code-generation backend first — when it is missing the
call fails with the message naming that backend, whatever the execution
backend is (even a missing one) — and only then validates the execution
backend, failing with the message naming it. -/
theorem wasm_engine_new_with_config_validation_order (feat : Features)
    (config : wasm_config_t) (slot : Option String) (hc : feat.compiler = true) :
    (compilerFeatureEnabled feat config.compiler = false →
      wasm_engine_new_with_config feat config slot =
        (none, some (missingFeatureMsg (compilerFeatureName config.compiler)))) ∧
    (compilerFeatureEnabled feat config.compiler = true →
      engineFeatureEnabled feat config.engine = false →
      wasm_engine_new_with_config feat config slot =
        (none, some (missingFeatureMsg (engineFeatureName config.engine)))) := by
  constructor
  · intro h
    unfold wasm_engine_new_with_config
    rw [hc, if_pos rfl, selectCompilerConfig_err feat config.compiler h]
    rfl
  · intro h he
    simp [wasm_engine_new_with_config, hc,
      selectCompilerConfig_ok feat config.compiler h,
      selectEngineWithCompiler_err feat config.compiler config.engine he,
      return_with_error]

/-- C2 witness: a build with only cranelift compiled in, configured with
the LLVM code-generation backend and the (also missing) native execution
backend, fails naming `llvm`, not `native`. -/
theorem wasm_engine_new_with_config_validation_order_witness :
    wasm_engine_new_with_config ⟨true, true, false, false, false, false, false⟩
        ⟨.NATIVE, .LLVM⟩ none =
      (none, some (missingFeatureMsg (compilerFeatureName .LLVM))) :=
  (wasm_engine_new_with_config_validation_order
    ⟨true, true, false, false, false, false, false⟩ ⟨.NATIVE, .LLVM⟩ none rfl).1 (by decide)

/-- C3 counterexample: on a build with only the cranelift backend and
the object-file engine compiled in, configuring execution = object-file
with codegen = LLVM does NOT succeed: the compiler match fails first,
naming `llvm`, even though the object-file arm would have ignored the
compiler configuration. -/
theorem objectFile_ignores_codegen_counterexample :
    wasm_engine_new_with_config ⟨true, true, false, false, false, false, true⟩
        ⟨.OBJECT_FILE, .LLVM⟩ none =
      (none, some (missingFeatureMsg "llvm")) := by
  rfl

/-- C3 (amended to compiled-in codegen choices): on a compiler-enabled
build with the object-file engine compiled in, building with
execution = object-file and any compiled-in codegen choice succeeds and
yields the headless object-file handle; the result is identical for
every other compiled-in codegen choice, and in particular for the
default configuration with only the engine set (codegen left unset). -/
theorem objectFile_ignores_compiled_codegen (feat : Features)
    (config : wasm_config_t) (slot : Option String) (c2 : wasmer_compiler_t)
    (hc : feat.compiler = true) (hof : feat.objectFile = true)
    (he : config.engine = .OBJECT_FILE)
    (ha : compilerFeatureEnabled feat config.compiler = true)
    (ha2 : compilerFeatureEnabled feat c2 = true) :
    wasm_engine_new_with_config feat config slot = (some ⟨.objectFileHeadless⟩, slot) ∧
    wasm_engine_new_with_config feat { config with compiler := c2 } slot =
      wasm_engine_new_with_config feat config slot ∧
    wasm_engine_new_with_config feat
        (wasm_config_set_engine (wasm_config_new feat) .OBJECT_FILE) slot =
      (some ⟨.objectFileHeadless⟩, slot) := by
  have hbuild : ∀ c : wasmer_compiler_t, compilerFeatureEnabled feat c = true →
      ∀ cfg : wasm_config_t, cfg.compiler = c → cfg.engine = .OBJECT_FILE →
      wasm_engine_new_with_config feat cfg slot = (some ⟨.objectFileHeadless⟩, slot) := by
    intro c hen cfg hcfg hcfge
    unfold wasm_engine_new_with_config
    rw [hc, if_pos rfl, hcfg, selectCompilerConfig_ok feat c hen, hcfge]
    simp [selectEngineWithCompiler, hof]
  have hsome : (feat.cranelift || feat.llvm || feat.singlepass) = true := by
    cases hcc : config.compiler <;> rw [hcc] at ha <;>
      simp_all [compilerFeatureEnabled]
  refine ⟨hbuild config.compiler ha config rfl he, ?_, ?_⟩
  · rw [hbuild config.compiler ha config rfl he,
      hbuild c2 ha2 { config with compiler := c2 } rfl he]
  · exact hbuild (wasmer_compiler_default feat)
      (wasmer_compiler_default_enabled feat hsome)
      (wasm_config_set_engine (wasm_config_new feat) .OBJECT_FILE) rfl rfl

/-- C3 witness: cranelift and llvm both compiled in along with the
object-file engine; codegen = LLVM with execution = object-file yields
the headless object-file handle. -/
theorem objectFile_ignores_compiled_codegen_witness :
    wasm_engine_new_with_config ⟨true, true, true, false, false, false, true⟩
        ⟨.OBJECT_FILE, .LLVM⟩ none =
      (some ⟨.objectFileHeadless⟩, none) :=
  (objectFile_ignores_compiled_codegen ⟨true, true, true, false, false, false, true⟩
    ⟨.OBJECT_FILE, .LLVM⟩ none .CRANELIFT rfl rfl rfl (by decide) (by decide)).1

/-- C4: when every selected backend is compiled in (the codegen
selection only exists on compiler-enabled builds),
`wasm_engine_new_with_config` returns a present handle and leaves the
last-error slot untouched; when the selected codegen backend is missing
it returns absent with the slot holding the message naming that codegen
backend; and when the codegen selection passes (or does not exist) but
the selected execution backend is missing, it returns absent with the
slot holding the message naming that execution backend. -/
theorem wasm_engine_new_with_config_correct (feat : Features)
    (config : wasm_config_t) (slot : Option String) :
    ((feat.compiler = true → compilerFeatureEnabled feat config.compiler = true) →
      engineFeatureEnabled feat config.engine = true →
      (wasm_engine_new_with_config feat config slot).1.isSome = true ∧
      (wasm_engine_new_with_config feat config slot).2 = slot) ∧
    (feat.compiler = true → compilerFeatureEnabled feat config.compiler = false →
      wasm_engine_new_with_config feat config slot =
        (none, some (missingFeatureMsg (compilerFeatureName config.compiler)))) ∧
    ((feat.compiler = true → compilerFeatureEnabled feat config.compiler = true) →
      engineFeatureEnabled feat config.engine = false →
      wasm_engine_new_with_config feat config slot =
        (none, some (missingFeatureMsg (engineFeatureName config.engine)))) := by
  refine ⟨?_, ?_, ?_⟩
  · intro hcc he
    rcases hc : feat.compiler with _ | _
    · obtain ⟨i, hi⟩ := selectEngineHeadless_ok feat config.engine he
      simp [wasm_engine_new_with_config, hc, hi]
    · obtain ⟨i, hi⟩ := selectEngineWithCompiler_ok feat config.compiler config.engine he
      simp [wasm_engine_new_with_config, hc,
        selectCompilerConfig_ok feat config.compiler (hcc hc), hi]
  · intro hc h
    simp [wasm_engine_new_with_config, hc,
      selectCompilerConfig_err feat config.compiler h, return_with_error]
  · intro hcc he
    rcases hc : feat.compiler with _ | _
    · simp [wasm_engine_new_with_config, hc,
        selectEngineHeadless_err feat config.engine he, return_with_error]
    · simp [wasm_engine_new_with_config, hc,
        selectCompilerConfig_ok feat config.compiler (hcc hc),
        selectEngineWithCompiler_err feat config.compiler config.engine he,
        return_with_error]

/-- C4 witness: compiler + cranelift + jit compiled in, configuration
selecting exactly those: a present handle and an untouched (empty)
last-error slot. -/
theorem wasm_engine_new_with_config_correct_witness :
    (wasm_engine_new_with_config ⟨true, true, false, false, true, false, false⟩
      ⟨.JIT, .CRANELIFT⟩ none).1.isSome = true ∧
    (wasm_engine_new_with_config ⟨true, true, false, false, true, false, false⟩
      ⟨.JIT, .CRANELIFT⟩ none).2 = none :=
  (wasm_engine_new_with_config_correct ⟨true, true, false, false, true, false, false⟩
    ⟨.JIT, .CRANELIFT⟩ none).1 (fun _ => by decide) (by decide)

/-- C8: `wasm_config_set_compiler` records exactly the given compiler
choice and leaves the engine selection unchanged, with no availability
check (it is defined for every choice and never consults the capability
set); `wasm_config_set_engine` records exactly the given engine choice
and leaves the compiler selection unchanged, likewise unconditionally. -/
theorem config_setters_frame (config : wasm_config_t)
    (compiler : wasmer_compiler_t) (engine : wasmer_engine_t) :
    (wasm_config_set_compiler config compiler).compiler = compiler ∧
    (wasm_config_set_compiler config compiler).engine = config.engine ∧
    (wasm_config_set_engine config engine).engine = engine ∧
    (wasm_config_set_engine config engine).compiler = config.compiler :=
  ⟨rfl, rfl, rfl, rfl⟩

end Wasmer
